import Mathlib

attribute [local semireducible] Rat.add Rat.mul Rat.inv Rat.sub

deriving instance DecidableEq for Except

/-!
Verification of the DMP search-and-matching equilibrium solver from
`Notebooks/ModeloDMPProdEspecifica.ipynb`.

The notebook defines three Python functions:

* `TyR(yr, θ, prms)` — the reservation-productivity (Bellman) update;
* `JCC(θ, yr, prms)` — the job-creation residual;
* `SolveModel(prms, tol=1e-6, step=0.5)` — nested damped fixed-point loops
  (inner loop on the reservation productivity, outer loop on market
  tightness) followed by closed-form unemployment/vacancy rates.

Embedding conventions:

* Numbers are modelled as rationals `ℚ` (idealised exact arithmetic in
  place of Python floats).
* The external numerical collaborators — the float power `θ**α`, the
  semi-infinite integrator `integrate.quad(f, a, np.inf)[0]` and the root
  finder `root(f, x0).x[0]` — are not rational-computable, so they are
  packaged as an explicit capability record `Numerics`; every theorem
  below holds for an arbitrary interpretation of these capabilities.
  Likewise the productivity distribution `F` (an opaque object exposing
  `pdf`/`cdf`) is a record of two functions.
* Python float division raises `ZeroDivisionError` on a zero denominator
  instead of returning a value; it is modelled by `pydiv`, returning
  `Except`.  Reading a local variable that was never assigned raises
  `NameError`; the loop state therefore carries `Option ℚ` slots for the
  variables `yr1` and `θ1` that Python binds only inside loop bodies.
* The two `while` loops of `SolveModel` have no iteration bound in the
  source; they are embedded as fuel-indexed recursions where exhausting
  the fuel yields `none`, i.e. `none` means the source has not terminated
  within that many iterations.
* The `print` diagnostics of the source have no effect on the computed
  values and are dropped.
-/

namespace DMPModel

/-- Runtime errors relevant to the solver.  The first two are the Python
built-in exceptions the notebook code can actually raise
(`ZeroDivisionError` from float division by zero and `NameError` from
reading a never-assigned variable); the last three are the error classes
named by the specification's error taxonomy, which no code path of the
notebook ever produces. -/
inductive PyErr where
  | zeroDivisionError
  | nameError
  | parameterError
  | rootFindingError
  | convergenceError
  deriving DecidableEq

/-- Productivity distribution capability: the opaque object `F` of the
source, exposing a density `F.pdf` and a cumulative distribution
`F.cdf`. -/
structure Distribution where
  pdf : ℚ → ℚ
  cdf : ℚ → ℚ

/-- Model parameters, the tuple `prms` unpacked by every source function
as `b, λ, A, α, β, r, c, F = prms`.  (`λ` is written `lam`.) -/
structure Params where
  b : ℚ
  lam : ℚ
  A : ℚ
  alpha : ℚ
  beta : ℚ
  r : ℚ
  c : ℚ
  F : Distribution

/-- External numerical capabilities used by the source: `fpow x a` models
the Python float power `x**a`, `quad f a` models
`integrate.quad(f, a, np.inf)[0]`, and `findRoot f x0` models
`root(f, x0).x[0]`. -/
structure Numerics where
  fpow : ℚ → ℚ → ℚ
  quad : (ℚ → ℚ) → ℚ → ℚ
  findRoot : (ℚ → Except PyErr ℚ) → ℚ → ℚ

/-- Python float division: raises `ZeroDivisionError` on a zero
denominator, otherwise returns the exact quotient. -/
def pydiv (x y : ℚ) : Except PyErr ℚ :=
  if y = 0 then .error .zeroDivisionError else .ok (x / y)

/-- Embedding of the source function `TyR(yr, θ, prms)`:

`yr1 = b + ((A*(θ**α)*β)/(λ+r))*integrate.quad(intf, yr, np.inf)[0]`

with `intf = lambda y: (y - yr)*F.pdf(y)`.  The function reads only its
arguments and writes nothing (the source has no side effects). -/
def TyR (N : Numerics) (yr θ : ℚ) (p : Params) : Except PyErr ℚ :=
  (pydiv (p.A * N.fpow θ p.alpha * p.beta) (p.lam + p.r)).map
    (fun frac => p.b + frac * N.quad (fun y => (y - yr) * p.F.pdf y) yr)

/-- Embedding of the source function `JCC(θ, yr, prms)`:

`out = c - (A*(θ**α)*(1 - β))/(θ*(r+λ))*integrate.quad(intf, yr, np.inf)[0]`

with `intf = lambda y: (y - yr)*F.pdf(y)`. -/
def JCC (N : Numerics) (θ yr : ℚ) (p : Params) : Except PyErr ℚ :=
  (pydiv (p.A * N.fpow θ p.alpha * (1 - p.beta)) (θ * (p.r + p.lam))).map
    (fun frac => p.c - frac * N.quad (fun y => (y - yr) * p.F.pdf y) yr)

/-- Inner `while difyr > tol` loop of `SolveModel`.  State: the current
iterate `yr0`, the last convergence diagnostic `difyr`, and the value of
the Python variable `yr1` if it has been assigned (`none` = unbound).
Each pass computes the undamped update `yr1 = TyR(yr0, θ0, prms)`, the
diagnostic `difyr = |yr1 - yr0|` on the undamped difference, and then the
damped iterate `yr0 = step*yr1 + (1-step)*yr0`.  On exit the source runs
`yrout = yr1`, so the loop returns `(yr1, yr0)`; an unbound `yr1` at that
point is a `NameError`.  `none` means the fuel ran out, i.e. the source
loop has not terminated within `fuel` passes. -/
def innerLoop (N : Numerics) (p : Params) (θ0 tol step : ℚ) :
    ℕ → ℚ → ℚ → Option ℚ → Option (Except PyErr (ℚ × ℚ))
  | 0, _, _, _ => none
  | fuel + 1, yr0, difyr, yr1mem =>
    if tol < difyr then
      match TyR N yr0 θ0 p with
      | .error e => some (.error e)
      | .ok yr1 =>
        innerLoop N p θ0 tol step fuel (step * yr1 + (1 - step) * yr0)
          |yr1 - yr0| (some yr1)
    else
      match yr1mem with
      | none => some (.error .nameError)
      | some yr1 => some (.ok (yr1, yr0))

/-- Outer `while diftheta > tol` loop of `SolveModel`.  State: the current
tightness iterate `θ0`, the reservation iterate `yr0` carried across
outer passes, the last diagnostic `diftheta`, and the values of the
Python variables `θ1` and `yr1` if assigned.  Each pass re-converges the
inner loop, then computes `θ1 = root(lambda x: JCC(x, yrout, prms), θ0)`,
the diagnostic `diftheta = |θ1 - θ0|` on the undamped difference, and the
damped iterate `θ0 = step*θ1 + (1-step)*θ0`.  On exit the source runs
`θout = θ1`, `uout = λ/((A*(θout**α))*(1-F.cdf(yrout)) + λ)` and
`vout = θout*uout`, returning `(yrout, θout, uout, vout)`; an unbound
`θ1`/`yr1` at that point is a `NameError`. -/
def outerLoop (N : Numerics) (p : Params) (tol step : ℚ) (innerFuel : ℕ) :
    ℕ → ℚ → ℚ → ℚ → Option ℚ → Option ℚ →
    Option (Except PyErr (ℚ × ℚ × ℚ × ℚ))
  | 0, _, _, _, _, _ => none
  | fuel + 1, θ0, yr0, diftheta, θ1mem, yr1mem =>
    if tol < diftheta then
      match innerLoop N p θ0 tol step innerFuel yr0 1 yr1mem with
      | none => none
      | some (.error e) => some (.error e)
      | some (.ok (yrout, yr0new)) =>
        outerLoop N p tol step innerFuel fuel
          (step * N.findRoot (fun x => JCC N x yrout p) θ0 + (1 - step) * θ0)
          yr0new
          |N.findRoot (fun x => JCC N x yrout p) θ0 - θ0|
          (some (N.findRoot (fun x => JCC N x yrout p) θ0)) (some yrout)
    else
      match θ1mem, yr1mem with
      | some θ1, some yrout =>
        match pydiv p.lam (p.A * N.fpow θ1 p.alpha * (1 - p.F.cdf yrout) + p.lam) with
        | .error e => some (.error e)
        | .ok uout => some (.ok (yrout, θ1, uout, θ1 * uout))
      | _, _ => some (.error .nameError)

/-- Embedding of `SolveModel(prms, tol=1e-6, step=0.5)`.  The source
initialises `yr0, θ0 = 1, 1` and `diftheta = 1`, with the Python
variables `θ1` and `yr1` still unbound.  `innerFuel`/`outerFuel` bound
the two unbounded source loops; `none` means one of them has not
terminated within its fuel. -/
def SolveModel (N : Numerics) (p : Params) (tol step : ℚ)
    (innerFuel outerFuel : ℕ) : Option (Except PyErr (ℚ × ℚ × ℚ × ℚ)) :=
  outerLoop N p tol step innerFuel outerFuel 1 1 1 none none

/-- Two sequential solves on the same inputs, as in the spec's
idempotence scenario. -/
def runTwice (N : Numerics) (p : Params) (tol step : ℚ)
    (innerFuel outerFuel : ℕ) :
    Option (Except PyErr (ℚ × ℚ × ℚ × ℚ)) ×
    Option (Except PyErr (ℚ × ℚ × ℚ × ℚ)) :=
  (SolveModel N p tol step innerFuel outerFuel,
   SolveModel N p tol step innerFuel outerFuel)

/-! Concrete fixtures used by witnesses and counterexamples.  The
capabilities are trivial rational functions, chosen only so that the
solver's arithmetic is exactly evaluable. -/

/-- Trivial capabilities: constant power 1, zero tail integral, root
finder returning its initial guess. -/
def N0 : Numerics where
  fpow := fun _ _ => 1
  quad := fun _ _ => 0
  findRoot := fun _ g => g

/-- Parameter fixture with positive rates and a distribution whose cdf is
constantly 1/2. -/
def p0 : Params where
  b := 1
  lam := 1/2
  A := 1
  alpha := 1/2
  beta := 1/2
  r := 1/2
  c := 1
  F := { pdf := fun _ => 1, cdf := fun _ => 1/2 }

/-- Parameter fixture whose distribution puts all mass below every point
(`cdf` constantly 1), so no match is acceptable at the converged
reservation level. -/
def pAbsorb : Params :=
  { p0 with F := { pdf := fun _ => 1, cdf := fun _ => 1 } }

/-- Capabilities whose integrator makes the reservation update the
oscillating affine map `yr ↦ 2 - 2·yr` (slope −2, so the undamped
fixed-point iteration diverges). -/
def Nosc : Numerics where
  fpow := fun _ _ => 1
  quad := fun _ a => 2 - 2 * a
  findRoot := fun _ g => g

/-- Parameters paired with `Nosc`: with `b = 0`, `λ + r = 1`, `A = β = 1`
the reservation update is exactly `2 - 2·yr`. -/
def posc : Params where
  b := 0
  lam := 1/2
  A := 1
  alpha := 1
  beta := 1
  r := 1/2
  c := 1
  F := { pdf := fun _ => 1, cdf := fun _ => 1/2 }

/-- C2: for every `yR`, `θ` and parameter set (with the positive
separation and discount rates the data model requires),
`ReservationResidual(yR, θ, params)` returns
`b + (A·θ^α·β / (λ + r)) · ∫_{yR}^{∞} (y − yR)·f(y) dy`, where `f` is the
Distribution Provider's density; being a plain function of its arguments,
it has no side effects. -/
theorem TyR_closed_form (N : Numerics) (p : Params) (yr θ : ℚ)
    (hlam : 0 < p.lam) (hr : 0 < p.r) :
    TyR N yr θ p =
      Except.ok (p.b + p.A * N.fpow θ p.alpha * p.beta / (p.lam + p.r) *
        N.quad (fun y => (y - yr) * p.F.pdf y) yr) := by
  have h : p.lam + p.r ≠ 0 := (add_pos hlam hr).ne'
  simp [TyR, pydiv, h, Except.map]

theorem TyR_closed_form_witness :
    ((0:ℚ) < p0.lam ∧ (0:ℚ) < p0.r) ∧
    TyR N0 1 1 p0 =
      Except.ok (p0.b + p0.A * N0.fpow 1 p0.alpha * p0.beta / (p0.lam + p0.r) *
        N0.quad (fun y => (y - 1) * p0.F.pdf y) 1) :=
  ⟨⟨by decide, by decide⟩, TyR_closed_form N0 p0 1 1 (by decide) (by decide)⟩

/-- C3: for every `θ > 0`, `yR` and parameter set (with positive rates),
`JobCreationResidual(θ, yR, params)` returns
`c − (A·θ^α·(1−β) / (θ·(r+λ))) · ∫_{yR}^{∞} (y − yR)·f(y) dy`, the signed
gap between the vacancy cost and the expected discounted surplus of
posting a vacancy. -/
theorem JCC_closed_form (N : Numerics) (p : Params) (θ yr : ℚ)
    (hθ : 0 < θ) (hlam : 0 < p.lam) (hr : 0 < p.r) :
    JCC N θ yr p =
      Except.ok (p.c - p.A * N.fpow θ p.alpha * (1 - p.beta) / (θ * (p.r + p.lam)) *
        N.quad (fun y => (y - yr) * p.F.pdf y) yr) := by
  have h : θ * (p.r + p.lam) ≠ 0 := (mul_pos hθ (add_pos hr hlam)).ne'
  simp [JCC, pydiv, h, Except.map]

theorem JCC_closed_form_witness :
    ((0:ℚ) < 1 ∧ (0:ℚ) < p0.lam ∧ (0:ℚ) < p0.r) ∧
    JCC N0 1 1 p0 =
      Except.ok (p0.c - p0.A * N0.fpow 1 p0.alpha * (1 - p0.beta) / (1 * (p0.r + p0.lam)) *
        N0.quad (fun y => (y - 1) * p0.F.pdf y) 1) :=
  ⟨⟨by decide, by decide, by decide⟩,
   JCC_closed_form N0 p0 1 1 (by decide) (by decide) (by decide)⟩

/-- C9: whenever both residuals evaluate (they share the same tail
integral), `JobCreationResidual(θ, yR, params) =
c − ((1−β)/(β·θ)) · (ReservationResidual(yR, θ, params) − b)` for every
`θ ≠ 0` and `β ≠ 0`. -/
theorem JCC_TyR_algebraic_link (N : Numerics) (p : Params) (θ yr ty jc : ℚ)
    (hθ : θ ≠ 0) (hβ : p.beta ≠ 0)
    (hty : TyR N yr θ p = Except.ok ty)
    (hjc : JCC N θ yr p = Except.ok jc) :
    jc = p.c - (1 - p.beta) / (p.beta * θ) * (ty - p.b) := by
  by_cases hlr : p.lam + p.r = 0
  · simp [TyR, pydiv, hlr, Except.map] at hty
  · have hrl : p.r + p.lam ≠ 0 := fun h => hlr (by linarith)
    have hd : θ * (p.r + p.lam) ≠ 0 := mul_ne_zero hθ hrl
    simp only [TyR, pydiv, if_neg hlr, Except.map, Except.ok.injEq] at hty
    simp only [JCC, pydiv, if_neg hd, Except.map, Except.ok.injEq] at hjc
    subst hty
    subst hjc
    field_simp
    ring

theorem JCC_TyR_algebraic_link_witness :
    ((1:ℚ) ≠ 0 ∧ p0.beta ≠ 0 ∧
     TyR N0 1 1 p0 = Except.ok 1 ∧ JCC N0 1 1 p0 = Except.ok 1) ∧
    (1:ℚ) = p0.c - (1 - p0.beta) / (p0.beta * 1) * (1 - p0.b) :=
  ⟨⟨by decide, by decide, by decide, by decide⟩,
   JCC_TyR_algebraic_link N0 p0 1 1 1 1 (by decide) (by decide)
     (by decide) (by decide)⟩

/-- C8: `SolveModel` is deterministic — two sequential calls on identical
`ModelParameters`, capabilities, `tol` and `step` yield identical
outputs.  The embedding is a pure function of its inputs; the source
reads no mutable global state and mutates neither `prms` nor `F`. -/
theorem solveModel_deterministic (N : Numerics) (p : Params)
    (tol step : ℚ) (innerFuel outerFuel : ℕ) :
    (runTwice N p tol step innerFuel outerFuel).1 =
      (runTwice N p tol step innerFuel outerFuel).2 := rfl

/-- C10: if `tol ≥ 1` (the initial value of the outer gap `diftheta`),
the outer loop body never executes and `SolveModel` fails with the
unbound-variable error (`θ1` is read but never assigned); conversely,
when `tol < 1`, allowing zero iterations of the inner loop produces no
result at all, and allowing zero completed outer iterations never
produces an `EquilibriumResult`. -/
theorem solveModel_tol_ge_one_unbound (N : Numerics) (p : Params)
    (tol step : ℚ) (iF oF : ℕ) :
    (1 ≤ tol → SolveModel N p tol step iF (oF + 1) =
      some (Except.error PyErr.nameError)) ∧
    (tol < 1 → SolveModel N p tol step 0 (oF + 1) = none) ∧
    (tol < 1 → ∀ res, SolveModel N p tol step iF 1 ≠ some (Except.ok res)) := by
  refine ⟨?_, ?_, ?_⟩
  · intro h
    have h1 : ¬ tol < 1 := not_lt.mpr h
    simp [SolveModel, outerLoop, h1]
  · intro h
    simp [SolveModel, outerLoop, h, innerLoop]
  · intro h res
    simp only [SolveModel, outerLoop, if_pos h]
    cases hin : innerLoop N p 1 tol step iF 1 1 none with
    | none => simp
    | some r =>
      cases r with
      | error e => simp
      | ok pr => simp [outerLoop]

theorem solveModel_tol_ge_one_unbound_witness :
    ((1:ℚ) ≤ 2 ∧
     SolveModel N0 p0 2 (1/2) 5 6 = some (Except.error PyErr.nameError)) ∧
    ((1:ℚ)/2 < 1 ∧
     SolveModel N0 p0 (1/2) (1/2) 0 6 = none ∧
     SolveModel N0 p0 (1/2) (1/2) 5 1 ≠ some (Except.ok (1, 1, 1, 1))) :=
  ⟨⟨by decide, (solveModel_tol_ge_one_unbound N0 p0 2 (1/2) 5 5).1 (by decide)⟩,
   by decide,
   (solveModel_tol_ge_one_unbound N0 p0 (1/2) (1/2) 5 5).2.1 (by decide),
   (solveModel_tol_ge_one_unbound N0 p0 (1/2) (1/2) 5 5).2.2 (by decide) (1, 1, 1, 1)⟩

/-- C1: `SolveModel` starts both guesses at 1 (first conjunct: the loop
state is entered with `θ0 = 1`, `yr0 = 1`, `diftheta = 1` and both loop
variables unbound).  Each inner pass computes the undamped update
`yr1 = ReservationResidual(yr0, θ0, params)`, records the convergence
diagnostic as the undamped difference `|yr1 − yr0|` (taken against the
pre-damping iterate, and the value the `while` guard compares with `tol`
on the next pass), and only then advances the iterate to the damped value
`step·yr1 + (1−step)·yr0` (second conjunct).  The outer pass does the
same with `θ1 = root(JCC(·, yrout, params), θ0)`: diagnostic
`|θ1 − θ0|` before damping, next iterate `step·θ1 + (1−step)·θ0`
(third conjunct). -/
theorem solveModel_loop_structure (N : Numerics) (p : Params)
    (tol step θ0 yr0 difyr diftheta yr1 yrout yr0new : ℚ)
    (iF oF : ℕ) (m θm ym : Option ℚ) :
    (SolveModel N p tol step iF oF =
      outerLoop N p tol step iF oF 1 1 1 none none) ∧
    (tol < difyr → TyR N yr0 θ0 p = Except.ok yr1 →
      innerLoop N p θ0 tol step (iF + 1) yr0 difyr m =
        innerLoop N p θ0 tol step iF (step * yr1 + (1 - step) * yr0)
          |yr1 - yr0| (some yr1)) ∧
    (tol < diftheta →
      innerLoop N p θ0 tol step iF yr0 1 ym = some (Except.ok (yrout, yr0new)) →
      outerLoop N p tol step iF (oF + 1) θ0 yr0 diftheta θm ym =
        outerLoop N p tol step iF oF
          (step * N.findRoot (fun x => JCC N x yrout p) θ0 + (1 - step) * θ0)
          yr0new
          |N.findRoot (fun x => JCC N x yrout p) θ0 - θ0|
          (some (N.findRoot (fun x => JCC N x yrout p) θ0)) (some yrout)) := by
  refine ⟨rfl, ?_, ?_⟩
  · intro h hT
    simp [innerLoop, h, hT]
  · intro h hin
    simp [outerLoop, h, hin]

theorem solveModel_loop_structure_witness :
    ((1:ℚ)/2 < 1 ∧ TyR N0 1 1 p0 = Except.ok 1 ∧
     innerLoop N0 p0 1 (1/2) (1/2) 5 1 1 none = some (Except.ok (1, 1))) ∧
    (SolveModel N0 p0 (1/2) (1/2) 5 5 =
      outerLoop N0 p0 (1/2) (1/2) 5 5 1 1 1 none none) ∧
    (innerLoop N0 p0 1 (1/2) (1/2) (5 + 1) 1 1 none =
      innerLoop N0 p0 1 (1/2) (1/2) 5 ((1:ℚ)/2 * 1 + (1 - 1/2) * 1)
        |(1:ℚ) - 1| (some 1)) ∧
    (outerLoop N0 p0 (1/2) (1/2) 5 (5 + 1) 1 1 1 none none =
      outerLoop N0 p0 (1/2) (1/2) 5 5
        ((1:ℚ)/2 * N0.findRoot (fun x => JCC N0 x 1 p0) 1 + (1 - 1/2) * 1) 1
        |N0.findRoot (fun x => JCC N0 x 1 p0) 1 - 1|
        (some (N0.findRoot (fun x => JCC N0 x 1 p0) 1)) (some 1)) :=
  ⟨⟨by decide, by decide, by decide⟩,
   (solveModel_loop_structure N0 p0 (1/2) (1/2) 1 1 1 1 1 1 1 5 5
      none none none).1,
   (solveModel_loop_structure N0 p0 (1/2) (1/2) 1 1 1 1 1 1 1 5 5
      none none none).2.1 (by decide) (by decide),
   (solveModel_loop_structure N0 p0 (1/2) (1/2) 1 1 1 1 1 1 1 5 5
      none none none).2.2 (by decide) (by decide)⟩

/-- Any `Except.ok` outcome of the outer loop carries the closed-form
unemployment rate and the vacancy rate `v = θ·u` computed in the exit
branch. -/
theorem outerLoop_ok_val (N : Numerics) (p : Params) (tol step : ℚ)
    (iF : ℕ) :
    ∀ (oF : ℕ) (θ0 yr0 dth : ℚ) (θm ym : Option ℚ) (yr θo u v : ℚ),
      outerLoop N p tol step iF oF θ0 yr0 dth θm ym =
        some (Except.ok (yr, θo, u, v)) →
      u = p.lam / (p.A * N.fpow θo p.alpha * (1 - p.F.cdf yr) + p.lam) ∧
      v = θo * u := by
  intro oF
  induction oF with
  | zero =>
    intro θ0 yr0 dth θm ym yr θo u v h
    simp [outerLoop] at h
  | succ n ih =>
    intro θ0 yr0 dth θm ym yr θo u v h
    simp only [outerLoop] at h
    split at h
    · split at h
      · exact Option.noConfusion h
      · simp at h
      · exact ih _ _ _ _ _ _ _ _ _ h
    · split at h
      · rename_i θ1 yrout
        split at h
        · simp at h
        · rename_i uout heq
          simp only [Option.some.injEq, Except.ok.injEq, Prod.mk.injEq] at h
          obtain ⟨h1, h2, h3, h4⟩ := h
          subst h1
          subst h2
          subst h3
          subst h4
          unfold pydiv at heq
          split at heq
          · exact Except.noConfusion heq
          · exact ⟨(Except.ok.injEq _ _ ▸ heq).symm, rfl⟩
      · simp at h

/-- C4: whenever `SolveModel` returns an `EquilibriumResult`
`(yrout, θout, uout, vout)`, the unemployment rate is the closed form
`uout = λ / (A·θout^α·(1 − F.cdf(yrout)) + λ)` and the vacancy rate is
`vout = θout·uout`. -/
theorem solveModel_postprocessing (N : Numerics) (p : Params)
    (tol step : ℚ) (iF oF : ℕ) (yr θo u v : ℚ)
    (h : SolveModel N p tol step iF oF = some (Except.ok (yr, θo, u, v))) :
    u = p.lam / (p.A * N.fpow θo p.alpha * (1 - p.F.cdf yr) + p.lam) ∧
    v = θo * u :=
  outerLoop_ok_val N p tol step iF oF 1 1 1 none none yr θo u v h

theorem solveModel_postprocessing_witness :
    SolveModel N0 p0 (1/2) (1/2) 5 5 = some (Except.ok (1, 1, 1/2, 1/2)) ∧
    ((1:ℚ)/2 = p0.lam / (p0.A * N0.fpow 1 p0.alpha * (1 - p0.F.cdf 1) + p0.lam) ∧
     (1:ℚ)/2 = 1 * (1/2)) :=
  ⟨by decide,
   solveModel_postprocessing N0 p0 (1/2) (1/2) 5 5 1 1 (1/2) (1/2) (by decide)⟩

/-- C7 as stated is false on the code: with `λ = 1/2 > 0` and a
distribution whose cdf equals 1 at the converged reservation level (no
acceptable matches), a converged `SolveModel` call returns the
unemployment rate `u = 1`, which does not satisfy `u < 1`. -/
theorem unemployment_rate_cex :
    SolveModel N0 pAbsorb (1/2) (1/2) 5 5 = some (Except.ok (1, 1, 1, 1)) ∧
    0 < pAbsorb.lam ∧ ¬ ((1:ℚ) < 1) :=
  ⟨by decide, by decide, by decide⟩

/-- C7, amended: for every result `(yR, θ, u, v)` returned by a converged
`SolveModel` call with `λ > 0` and a nonnegative acceptance term
`A·θ^α·(1 − F.cdf(yR)) ≥ 0`, the unemployment rate satisfies
`0 < u ≤ 1` (with `u = 1` exactly when the acceptance term vanishes, as
in the counterexample) and the vacancy rate satisfies `v = θ·u`
exactly. -/
theorem rates_at_convergence (N : Numerics) (p : Params)
    (tol step : ℚ) (iF oF : ℕ) (yr θo u v : ℚ)
    (h : SolveModel N p tol step iF oF = some (Except.ok (yr, θo, u, v)))
    (hlam : 0 < p.lam)
    (hacc : 0 ≤ p.A * N.fpow θo p.alpha * (1 - p.F.cdf yr)) :
    0 < u ∧ u ≤ 1 ∧ v = θo * u := by
  obtain ⟨hu, hv⟩ := outerLoop_ok_val N p tol step iF oF 1 1 1 none none yr θo u v h
  have hden : 0 < p.A * N.fpow θo p.alpha * (1 - p.F.cdf yr) + p.lam := by
    linarith
  refine ⟨?_, ?_, hv⟩
  · rw [hu]
    exact div_pos hlam hden
  · rw [hu, div_le_one hden]
    linarith

theorem rates_at_convergence_witness :
    (SolveModel N0 p0 (1/2) (1/2) 6 6 = some (Except.ok (1, 1, 1/2, 1/2)) ∧
     0 < p0.lam ∧
     0 ≤ p0.A * N0.fpow 1 p0.alpha * (1 - p0.F.cdf 1)) ∧
    (0 < (1:ℚ)/2 ∧ (1:ℚ)/2 ≤ 1 ∧ (1:ℚ)/2 = 1 * (1/2)) :=
  ⟨⟨by decide, by decide, by decide⟩,
   rates_at_convergence N0 p0 (1/2) (1/2) 6 6 1 1 (1/2) (1/2)
     (by decide) (by decide) (by decide)⟩

/-- C5 as stated is false on the code: evaluating `JobCreationResidual`
at the non-positive tightness `θ = −1` raises nothing and returns the
finite value 1 (silent continuation), and at `θ = 0` the error actually
raised is the unhandled built-in `ZeroDivisionError`, not a
`ParameterError` or `RootFindingError` (no code path produces those). -/
theorem JCC_nonpositive_theta_cex :
    JCC N0 (-1) 1 p0 = Except.ok 1 ∧
    JCC N0 0 1 p0 = Except.error PyErr.zeroDivisionError ∧
    PyErr.zeroDivisionError ≠ PyErr.parameterError ∧
    PyErr.zeroDivisionError ≠ PyErr.rootFindingError :=
  ⟨by decide, by decide, by decide, by decide⟩

/-- C5, amended: evaluating `JobCreationResidual` at `θ = 0` raises the
unhandled built-in `ZeroDivisionError` (so no finite value is returned),
not a `ParameterError`/`RootFindingError`; there is no guard on
non-positive tightness — whenever the denominator `θ·(r+λ)` is nonzero
(in particular for every negative `θ` with positive rates) the function
silently returns a value. -/
theorem JCC_theta_zero_zeroDivision (N : Numerics) (p : Params) (yr : ℚ) :
    JCC N 0 yr p = Except.error PyErr.zeroDivisionError ∧
    (∀ θ : ℚ, θ * (p.r + p.lam) ≠ 0 → ∃ out, JCC N θ yr p = Except.ok out) := by
  constructor
  · simp [JCC, pydiv, Except.map]
  · intro θ hθ
    refine ⟨p.c - p.A * N.fpow θ p.alpha * (1 - p.beta) / (θ * (p.r + p.lam)) *
      N.quad (fun y => (y - yr) * p.F.pdf y) yr, ?_⟩
    simp [JCC, pydiv, hθ, Except.map]

theorem JCC_theta_zero_zeroDivision_witness :
    JCC N0 0 1 p0 = Except.error PyErr.zeroDivisionError ∧
    ((-1:ℚ) * (p0.r + p0.lam) ≠ 0 ∧ ∃ out, JCC N0 (-1) 1 p0 = Except.ok out) :=
  ⟨(JCC_theta_zero_zeroDivision N0 p0 1).1,
   by decide,
   (JCC_theta_zero_zeroDivision N0 p0 1).2 (-1) (by decide)⟩

/-- With the oscillating fixture, the reservation update is the affine
map `yr ↦ 2 - 2·yr`. -/
theorem TyR_osc (yr θ : ℚ) : TyR Nosc yr θ posc = Except.ok (2 - 2 * yr) := by
  have h : posc.lam + posc.r ≠ 0 := by norm_num [posc]
  simp only [TyR, pydiv, if_neg h, Except.map, Except.ok.injEq, Nosc, posc]
  norm_num

/-- With `step = 1` (no damping) the inner loop on the oscillating
fixture never meets the tolerance: the iterates satisfy
`|yr − 2/3| ≥ 1/3`, so every undamped difference `|2 − 3·yr|` stays at
least 1, and the loop consumes all its fuel. -/
theorem innerLoop_osc_diverges :
    ∀ (f : ℕ) (θ0 yr0 difyr : ℚ) (m : Option ℚ),
      1/3 ≤ |yr0 - 2/3| → 1/1000000 < difyr →
      innerLoop Nosc posc θ0 (1/1000000) 1 f yr0 difyr m = none := by
  intro f
  induction f with
  | zero =>
    intro θ0 yr0 difyr m _ _
    simp [innerLoop]
  | succ n ih =>
    intro θ0 yr0 difyr m hinv hdif
    simp only [innerLoop, if_pos hdif, TyR_osc]
    have e1 : (2:ℚ) - 2 * yr0 - 2/3 = -(2 * (yr0 - 2/3)) := by ring
    have e2 : (2:ℚ) - 2 * yr0 - yr0 = -(3 * (yr0 - 2/3)) := by ring
    have h2 : |(2:ℚ) - 2 * yr0 - 2/3| = 2 * |yr0 - 2/3| := by
      rw [e1, abs_neg, abs_mul, abs_two]
    have h3 : |(2:ℚ) - 2 * yr0 - yr0| = 3 * |yr0 - 2/3| := by
      rw [e2, abs_neg, abs_mul]
      norm_num
    apply ih
    · rw [show (1:ℚ) * (2 - 2 * yr0) + (1 - 1) * yr0 - 2/3 =
        2 - 2 * yr0 - 2/3 by ring, h2]
      linarith
    · calc (1:ℚ)/1000000 < 1 := by norm_num
        _ ≤ 3 * |yr0 - 2/3| := by linarith
        _ = |2 - 2 * yr0 - yr0| := h3.symm

/-- C6: the code has no iteration cap.  On the oscillating configuration
with `step = 1` (no damping) the solve never terminates: for every
iteration budget, `SolveModel` is still running (it returns no value and
in particular never signals a `ConvergenceError`, an error class no code
path produces). -/
theorem solveModel_diverges_without_cap :
    ∀ (innerFuel outerFuel : ℕ),
      SolveModel Nosc posc (1/1000000) 1 innerFuel outerFuel = none := by
  intro iF oF
  cases oF with
  | zero => simp [SolveModel, outerLoop]
  | succ n =>
    have h1 : (1:ℚ)/1000000 < 1 := by norm_num
    have hstart : (1:ℚ)/3 ≤ |(1:ℚ) - 2/3| := by
      rw [show (1:ℚ) - 2/3 = 1/3 by norm_num, abs_of_pos (by norm_num)]
    simp only [SolveModel, outerLoop, if_pos h1,
      innerLoop_osc_diverges iF 1 1 1 none hstart h1]

end DMPModel
